import Mathlib

/-!
# Verification of the gate-backend visitor lifecycle (src/server.js)

Shallow embedding of the Express/Mongoose backend in `src/server.js`.

Modelling conventions:
* A Mongo `Date` is a `Nat` timestamp; the "current time" is passed to each
  handler explicitly.
* A JSON body field that may be absent is an `Option`; JavaScript/Mongoose
  truthiness of a string field (`if (x)`, and Mongoose's `required`
  check for strings, which rejects both `undefined` and `""`) is `strTruthy`.
* Mongoose strips `undefined`-valued keys both from query filters and from
  update documents; `mongoSet` models the update-side behaviour.
* `new Model(body)` applies schema defaults for absent fields
  (`status := "Pending"`, `entryTime := Date.now`, `photo := ""`), and
  `save()` runs the schema validators (`mobile` required on visitors,
  `target` enum on announcements); a validator failure raises a
  `ValidationError` which each route's `catch` turns into an HTTP 500.
* A "dispatch attempt" is a call to `sendPushNotification`; handlers record
  in `dispatched` the tokens they passed to it, in call order.
-/

/-- JavaScript truthiness of an optional string field (also Mongoose's
`required` validator for `String` paths: absent and `""` both fail). -/
def strTruthy : Option String → Bool
  | none => false
  | some s => !(s == "")

/-- Mongoose update semantics for one field: an `undefined` value is stripped
from the update document, leaving the stored value; a present value is `$set`. -/
def mongoSet (old new : Option String) : Option String :=
  match new with
  | none => old
  | some s => some s

/-- A document of the `User` model (userSchema, src/server.js lines 29-38). -/
structure UserDoc where
  uid : String
  phone : String
  password : String
  name : String
  role : String
  flatNumber : Option String
  photo : String
  pushToken : Option String
deriving Repr, DecidableEq

/-- A document of the `Visitor` model (visitorSchema, src/server.js lines
41-51).  `mobile` is `required` by the schema but an in-memory document built
from a body may still lack it, so it stays an `Option` here; `save()`
enforces presence. -/
structure VisitorDoc where
  vid : String
  name : Option String
  purpose : Option String
  flatNumber : Option String
  status : String
  entryTime : Nat
  approvalTime : Option Nat
  photo : String
  mobile : Option String
deriving Repr, DecidableEq

/-- A document of the `Announcement` model (announcementSchema, src/server.js
lines 54-60). -/
structure AnnouncementDoc where
  aid : String
  title : Option String
  message : Option String
  target : String
  date : Nat
deriving Repr, DecidableEq

/-- The JSON body of `POST /visitor-request`: every visitorSchema path the
caller may supply (Mongoose copies each present body field into the new
document). -/
structure VisitorBody where
  name : Option String
  purpose : Option String
  flatNumber : Option String
  status : Option String
  entryTime : Option Nat
  approvalTime : Option Nat
  photo : Option String
  mobile : Option String
deriving Repr, DecidableEq

/-- `new Visitor(req.body)`: body fields where present, schema defaults
otherwise (`status = "Pending"`, `entryTime = Date.now()`, `photo = ""`;
`approvalTime` has no default). -/
def newVisitorDoc (vid : String) (now : Nat) (b : VisitorBody) : VisitorDoc :=
  { vid := vid
    name := b.name
    purpose := b.purpose
    flatNumber := b.flatNumber
    status := b.status.getD "Pending"
    entryTime := b.entryTime.getD now
    approvalTime := b.approvalTime
    photo := b.photo.getD ""
    mobile := b.mobile }

/-- The visitorSchema validators run by `save()`: only `mobile` is
`required`; every other path is optional. -/
def visitorSchemaValid (v : VisitorDoc) : Bool :=
  strTruthy v.mobile

/-- Mongoose query-filter match for `{ flatNumber: f }` where `f` came from a
possibly-absent body field: an `undefined` key is stripped from the filter
(matching every document); a present key requires string equality. -/
def flatQueryMatch (f : Option String) (uf : Option String) : Bool :=
  match f with
  | none => true
  | some s => uf == some s

/-- The `forEach`/`if (pushToken)` dispatch loop: the tokens passed to
`sendPushNotification`, one per user with a truthy token, in list order. -/
def dispatchTokens (us : List UserDoc) : List String :=
  us.filterMap fun u =>
    match u.pushToken with
    | none => none
    | some t => if t == "" then none else some t

/-- Result of one request: the HTTP status sent, the `data` payload (the
visitor document in the JSON response, when one is sent), the post-state of
the visitor collection, and the tokens passed to `sendPushNotification`. -/
structure VisitorResp where
  httpStatus : Nat
  data : Option VisitorDoc
  visitors : List VisitorDoc
  dispatched : List String
deriving Repr, DecidableEq

/-- `POST /visitor-request` (src/server.js lines 145-176): build the document
from the body, `save()` it (a `ValidationError` is caught and answered with
HTTP 500, nothing persisted), then find all users matching
`{ flatNumber, role: 'resident' }` and dispatch to each truthy token;
both the some-residents and the no-residents branches answer 201 with the
stored record. -/
def visitorRequest (users : List UserDoc) (visitors : List VisitorDoc)
    (vid : String) (now : Nat) (b : VisitorBody) : VisitorResp :=
  let nv := newVisitorDoc vid now b
  if visitorSchemaValid nv then
    let residents := users.filter fun u =>
      flatQueryMatch b.flatNumber u.flatNumber && u.role == "resident"
    { httpStatus := 201
      data := some nv
      visitors := visitors ++ [nv]
      dispatched := dispatchTokens residents }
  else
    { httpStatus := 500, data := none, visitors := visitors, dispatched := [] }

/-- Replace the first element satisfying `p` by its image under `f`
(`findByIdAndUpdate` touches exactly one document). -/
def updateFirst (p : α → Bool) (f : α → α) : List α → List α
  | [] => []
  | x :: xs => if p x then f x :: xs else x :: updateFirst p f xs

/-- The JSON body of `PUT /update-visitor-target`. -/
structure RetargetBody where
  id : Option String
  flatNumber : Option String
  purpose : Option String
deriving Repr, DecidableEq

/-- The update document `{ flatNumber, purpose }` of the retarget route
applied to a stored visitor: `flatNumber` and `purpose` are `$set` when
present (an `undefined` `purpose` is stripped); no other path appears in the
update. -/
def retargetUpdate (b : RetargetBody) (v : VisitorDoc) : VisitorDoc :=
  { v with
    flatNumber := mongoSet v.flatNumber b.flatNumber
    purpose := mongoSet v.purpose b.purpose }

/-- Match of a stored document against `findByIdAndUpdate`'s id argument. -/
def idMatch (i : Option String) (v : VisitorDoc) : Bool :=
  some v.vid == i

/-- The notification block of `PUT /update-visitor-target`:
`User.findOne({ flatNumber })` — the first stored user with the new flat,
with no role filter — and one call to `sendPushNotification` when that
user exists and its token is truthy. -/
def retargetDispatch (users : List UserDoc) (q : Option String) : List String :=
  match users.find? fun u => u.flatNumber == q with
  | none => []
  | some u =>
    match u.pushToken with
    | none => []
    | some t => if t == "" then [] else [t]

/-- `PUT /update-visitor-target` (src/server.js lines 180-233): reject a
falsy `id` or `flatNumber` with 400; `findByIdAndUpdate` the visitor (404
when the id resolves to nothing); then `User.findOne({ flatNumber })` — the
first user with that flat, with no role filter — and dispatch to its token
when truthy, inside a try/catch that cannot affect the 200 response. -/
def updateVisitorTarget (users : List UserDoc) (visitors : List VisitorDoc)
    (b : RetargetBody) : VisitorResp :=
  if !(strTruthy b.id) || !(strTruthy b.flatNumber) then
    { httpStatus := 400, data := none, visitors := visitors, dispatched := [] }
  else
    match visitors.find? (idMatch b.id) with
    | none =>
      { httpStatus := 404, data := none, visitors := visitors, dispatched := [] }
    | some v =>
      { httpStatus := 200
        data := some (retargetUpdate b v)
        visitors := updateFirst (idMatch b.id) (retargetUpdate b) visitors
        dispatched := retargetDispatch users b.flatNumber }

/-- The JSON body of `PUT /visitor-response`. -/
structure StatusBody where
  id : Option String
  status : Option String
deriving Repr, DecidableEq

/-- The update document of `PUT /visitor-response`: `{ status }`, plus
`approvalTime = new Date()` exactly when `status` is `'Approved'` or
`'Rejected'`. -/
def statusUpdate (now : Nat) (st : Option String) (v : VisitorDoc) : VisitorDoc :=
  let v1 := match st with
    | none => v
    | some s => { v with status := s }
  if st == some "Approved" || st == some "Rejected" then
    { v1 with approvalTime := some now }
  else
    v1

/-- `PUT /visitor-response` (src/server.js lines 328-340, repeated verbatim
at 355-374): no validation of `status` and no not-found check —
`findByIdAndUpdate` returning `null` still answers HTTP 200 with
`data: null`. -/
def visitorResponse (visitors : List VisitorDoc) (b : StatusBody)
    (now : Nat) : VisitorResp :=
  match visitors.find? (idMatch b.id) with
  | none =>
    { httpStatus := 200, data := none, visitors := visitors, dispatched := [] }
  | some v =>
    { httpStatus := 200
      data := some (statusUpdate now b.status v)
      visitors := updateFirst (idMatch b.id) (statusUpdate now b.status) visitors
      dispatched := [] }

/-- The JSON body of `POST /admin/announce`. -/
structure AnnounceBody where
  title : Option String
  message : Option String
  target : Option String
deriving Repr, DecidableEq

/-- The announcementSchema `enum` validator on `target`, run by `save()`
(after the `default: 'all'` fills an absent value). -/
def targetEnumOk : String → Bool
  | "all" => true
  | "resident" => true
  | "guard" => true
  | _ => false

/-- The audience filter of `POST /admin/announce`, keyed on the *body's*
`target` value: `{}` (everyone) unless it is exactly `'resident'` or
`'guard'`. -/
def announceAudience (tgt : Option String) (users : List UserDoc) : List UserDoc :=
  users.filter fun u =>
    if tgt == some "resident" then u.role == "resident"
    else if tgt == some "guard" then u.role == "guard"
    else true

/-- Result of `POST /admin/announce`. -/
structure AnnounceResp where
  httpStatus : Nat
  count : Option Nat
  announcements : List AnnouncementDoc
  dispatched : List String
deriving Repr, DecidableEq

/-- `POST /admin/announce` (src/server.js lines 249-275): build and `save()`
the announcement (an absent `target` defaults to `'all'`; a present value
outside the enum fails validation, caught as HTTP 500 with nothing
persisted), resolve the audience from the body's `target`, dispatch to every
truthy token, and answer `count` = number of resolved audience members. -/
def adminAnnounce (users : List UserDoc) (anns : List AnnouncementDoc)
    (aid : String) (now : Nat) (b : AnnounceBody) : AnnounceResp :=
  let tgt := b.target.getD "all"
  if targetEnumOk tgt then
    let doc : AnnouncementDoc :=
      { aid := aid, title := b.title, message := b.message, target := tgt, date := now }
    let audience := announceAudience b.target users
    { httpStatus := 200
      count := some audience.length
      announcements := anns ++ [doc]
      dispatched := dispatchTokens audience }
  else
    { httpStatus := 500, count := none, announcements := anns, dispatched := [] }

/-- The sort order of `.sort({ entryTime: -1 })`: newest first. -/
def entryDesc (v w : VisitorDoc) : Prop :=
  w.entryTime ≤ v.entryTime

instance : DecidableRel entryDesc :=
  fun v w => Nat.decLe w.entryTime v.entryTime

instance : IsTotal VisitorDoc entryDesc :=
  ⟨fun v w => Nat.le_total w.entryTime v.entryTime⟩

instance : IsTrans VisitorDoc entryDesc :=
  ⟨fun _ _ _ h h2 => Nat.le_trans h2 h⟩

/-- `GET /all-visitors` (src/server.js lines 319-326):
`Visitor.find().sort({ entryTime: -1 })`. -/
def allVisitors (visitors : List VisitorDoc) : List VisitorDoc :=
  List.insertionSort entryDesc visitors

/-- `GET /visitors/:flat` (src/server.js lines 344-352):
`Visitor.find({ flatNumber: flat }).sort({ entryTime: -1 })`. -/
def visitorsByFlat (visitors : List VisitorDoc) (flat : String) : List VisitorDoc :=
  List.insertionSort entryDesc (visitors.filter fun v => v.flatNumber == some flat)

/-! ## Concrete fixtures used by counterexamples and witnesses -/

/-- The spec's scenario body: Alex visiting flat 12B, documented fields only. -/
def bAlex : VisitorBody :=
  { name := some "Alex", purpose := some "delivery", flatNumber := some "12B",
    status := none, entryTime := none, approvalTime := none, photo := none,
    mobile := some "555-0100" }

/-- Alex's body with the target flat left out. -/
def bNoFlat : VisitorBody :=
  { bAlex with flatNumber := none }

/-- A create body that supplies the defaulted schema fields itself. -/
def bOverride : VisitorBody :=
  { bAlex with
    status := some "Approved", entryTime := some 999,
    approvalTime := some 5, photo := some "img.png" }

/-- A stored pending visitor. -/
def vPending : VisitorDoc :=
  { vid := "v1", name := some "Alex", purpose := some "delivery",
    flatNumber := some "12B", status := "Pending", entryTime := 10,
    approvalTime := none, photo := "", mobile := some "555-0100" }

/-- A tokened resident of flat 7A. -/
def resA : UserDoc :=
  { uid := "u1", phone := "100", password := "pw", name := "Ra",
    role := "resident", flatNumber := some "7A", photo := "",
    pushToken := some "tokA" }

/-- A second tokened co-resident of flat 7A. -/
def resB : UserDoc :=
  { uid := "u2", phone := "101", password := "pw", name := "Rb",
    role := "resident", flatNumber := some "7A", photo := "",
    pushToken := some "tokB" }

/-- A tokened guard whose user record carries flat 7A. -/
def guardG : UserDoc :=
  { uid := "u3", phone := "102", password := "pw", name := "G",
    role := "guard", flatNumber := some "7A", photo := "",
    pushToken := some "tokG" }

/-- A resident of flat 7A with no push token. -/
def resNoTok : UserDoc :=
  { uid := "u4", phone := "103", password := "pw", name := "Rc",
    role := "resident", flatNumber := some "7A", photo := "",
    pushToken := none }

/-! ## Theorems -/

/-- C1 (counterexample): a create request with `mobile` present but
`targetFlat` absent does not fail with a ValidationError — it answers 201
and the record is persisted, refuting the claim that absence of either
field yields HTTP 400 with nothing stored. -/
theorem visitorRequest_missingFlat_persists :
    bNoFlat.flatNumber = none ∧
    (visitorRequest [] [] "v1" 7 bNoFlat).httpStatus = 201 ∧
    (visitorRequest [] [] "v1" 7 bNoFlat).visitors = [newVisitorDoc "v1" 7 bNoFlat] := by
  refine ⟨rfl, rfl, rfl⟩

/-- C1 (amended): `POST /visitor-request` raises a ValidationError exactly
when `mobile` is absent or empty — surfaced as HTTP 500 with no record
persisted; a request whose `mobile` is a non-empty string is persisted and
answered 201 regardless of whether `targetFlat` is present. -/
theorem visitorRequest_validation (users : List UserDoc)
    (visitors : List VisitorDoc) (vid : String) (now : Nat) (b : VisitorBody) :
    (visitorRequest users visitors vid now b).httpStatus =
      (if strTruthy b.mobile then 201 else 500) ∧
    (visitorRequest users visitors vid now b).visitors =
      (if strTruthy b.mobile then visitors ++ [newVisitorDoc vid now b]
       else visitors) := by
  unfold visitorRequest visitorSchemaValid
  cases h : strTruthy (newVisitorDoc vid now b).mobile <;>
    simp_all [newVisitorDoc]

/-- Shape of a `POST /visitor-request` response once validation passed. -/
theorem visitorRequest_valid_eq (users : List UserDoc)
    (visitors : List VisitorDoc) (vid : String) (now : Nat) (b : VisitorBody)
    (hm : strTruthy b.mobile = true) :
    visitorRequest users visitors vid now b =
      { httpStatus := 201
        data := some (newVisitorDoc vid now b)
        visitors := visitors ++ [newVisitorDoc vid now b]
        dispatched := dispatchTokens (users.filter fun u =>
          flatQueryMatch b.flatNumber u.flatNumber && u.role == "resident") } := by
  have hv : visitorSchemaValid (newVisitorDoc vid now b) = true := hm
  simp [visitorRequest, hv]

/-- C2: a valid create that supplies only the documented request fields
(no `status`, `entryTime`, `approvalTime` in the body) answers 201 with the
stored record, which has status `Pending`, no `approvalTime`, and
`entryTime` equal to the creation time — for every user directory, and with
zero dispatches when no matching resident exists. -/
theorem visitorRequest_pending (users : List UserDoc)
    (visitors : List VisitorDoc) (vid : String) (now : Nat) (b : VisitorBody)
    (hm : strTruthy b.mobile = true) (hs : b.status = none)
    (he : b.entryTime = none) (ha : b.approvalTime = none) :
    (visitorRequest users visitors vid now b).httpStatus = 201 ∧
    (visitorRequest users visitors vid now b).data = some (newVisitorDoc vid now b) ∧
    (visitorRequest users visitors vid now b).visitors
      = visitors ++ [newVisitorDoc vid now b] ∧
    (newVisitorDoc vid now b).status = "Pending" ∧
    (newVisitorDoc vid now b).approvalTime = none ∧
    (newVisitorDoc vid now b).entryTime = now ∧
    ((users.filter fun u =>
        flatQueryMatch b.flatNumber u.flatNumber && u.role == "resident") = []
      → (visitorRequest users visitors vid now b).dispatched = []) := by
  rw [visitorRequest_valid_eq users visitors vid now b hm]
  refine ⟨rfl, rfl, rfl, ?_, ?_, ?_, ?_⟩
  · simp [newVisitorDoc, hs]
  · simp [newVisitorDoc, ha]
  · simp [newVisitorDoc, he]
  · intro hres
    simp [hres, dispatchTokens]

/-- C2 (witness): the spec's scenario — Alex visiting 12B with no resident
registered there — instantiated at an empty directory. -/
theorem visitorRequest_pending_witness :
    (visitorRequest [] [] "v1" 7 bAlex).httpStatus = 201 ∧
    (visitorRequest [] [] "v1" 7 bAlex).data = some (newVisitorDoc "v1" 7 bAlex) ∧
    (visitorRequest [] [] "v1" 7 bAlex).visitors = [] ++ [newVisitorDoc "v1" 7 bAlex] ∧
    (newVisitorDoc "v1" 7 bAlex).status = "Pending" ∧
    (newVisitorDoc "v1" 7 bAlex).approvalTime = none ∧
    (newVisitorDoc "v1" 7 bAlex).entryTime = 7 ∧
    (([] : List UserDoc).filter (fun u =>
        flatQueryMatch bAlex.flatNumber u.flatNumber && u.role == "resident") = []
      → (visitorRequest [] [] "v1" 7 bAlex).dispatched = []) :=
  visitorRequest_pending [] [] "v1" 7 bAlex rfl rfl rfl rfl

/-- C10: the create route hands the whole request body to the persistence
layer, so any schema field the caller supplies — `status`, `entryTime`,
`approvalTime`, `photo` — is stored (and returned) verbatim, overriding the
documented defaults. -/
theorem visitorRequest_payload_override (users : List UserDoc)
    (visitors : List VisitorDoc) (vid : String) (now : Nat) (b : VisitorBody)
    (hm : strTruthy b.mobile = true) :
    (visitorRequest users visitors vid now b).visitors
      = visitors ++ [newVisitorDoc vid now b] ∧
    (visitorRequest users visitors vid now b).data = some (newVisitorDoc vid now b) ∧
    (∀ s, b.status = some s → (newVisitorDoc vid now b).status = s) ∧
    (∀ t, b.entryTime = some t → (newVisitorDoc vid now b).entryTime = t) ∧
    (∀ t, b.approvalTime = some t → (newVisitorDoc vid now b).approvalTime = some t) ∧
    (∀ p, b.photo = some p → (newVisitorDoc vid now b).photo = p) := by
  rw [visitorRequest_valid_eq users visitors vid now b hm]
  refine ⟨rfl, rfl, ?_, ?_, ?_, ?_⟩ <;>
    intro x hx <;> simp [newVisitorDoc, hx]

/-- C10 (witness): a body carrying `status:"Approved"`, `entryTime:999`,
`approvalTime:5` and a photo is persisted with exactly those values. -/
theorem visitorRequest_payload_override_witness :
    (visitorRequest [] [] "v9" 7 bOverride).visitors = [newVisitorDoc "v9" 7 bOverride] ∧
    (newVisitorDoc "v9" 7 bOverride).status = "Approved" ∧
    (newVisitorDoc "v9" 7 bOverride).entryTime = 999 ∧
    (newVisitorDoc "v9" 7 bOverride).approvalTime = some 5 ∧
    (newVisitorDoc "v9" 7 bOverride).photo = "img.png" := by
  have h := visitorRequest_payload_override [] [] "v9" 7 bOverride rfl
  exact ⟨h.1, h.2.2.1 "Approved" rfl, h.2.2.2.1 999 rfl,
    h.2.2.2.2.1 5 rfl, h.2.2.2.2.2 "img.png" rfl⟩

/-- `statusUpdate` never touches the id. -/
theorem statusUpdate_vid (now : Nat) (st : Option String) (v : VisitorDoc) :
    (statusUpdate now st v).vid = v.vid := by
  cases st <;> simp only [statusUpdate] <;> split <;> rfl

/-- `updateFirst` commutes with `find?` when `f` preserves the predicate. -/
theorem find?_updateFirst (p : α → Bool) (f : α → α)
    (hp : ∀ a, p a = true → p (f a) = true) (l : List α) :
    (updateFirst p f l).find? p = (l.find? p).map f := by
  induction l with
  | nil => simp [updateFirst]
  | cons x xs ih =>
    by_cases h : p x = true
    · simp [updateFirst, h, hp x h]
    · simp [updateFirst, h, ih]

/-- For a decision status, `statusUpdate` overwrites `status` and stamps
`approvalTime` with the call's time. -/
theorem statusUpdate_decision (now : Nat) (s : String) (v : VisitorDoc)
    (hs : s = "Approved" ∨ s = "Rejected") :
    statusUpdate now (some s) v = { v with status := s, approvalTime := some now } := by
  rcases hs with h | h <;> subst h <;> rfl

/-- C3 (counterexample): `UpdateStatus` with the out-of-range status
`"Banana"` on a stored visitor is not rejected with HTTP 400 — it answers
200 and mutates the record; and an unknown id is not answered with 404 —
it answers 200 with a null record. -/
theorem visitorResponse_no_validation :
    (visitorResponse [vPending] { id := some "v1", status := some "Banana" } 50).httpStatus = 200 ∧
    (visitorResponse [vPending] { id := some "v1", status := some "Banana" } 50).visitors ≠ [vPending] ∧
    (visitorResponse [vPending] { id := some "zzz", status := some "Approved" } 50).httpStatus = 200 ∧
    (visitorResponse [vPending] { id := some "zzz", status := some "Approved" } 50).data = none := by
  decide

/-- C3 (amended): `PUT /visitor-response` validates nothing: it always
answers HTTP 200; any status string in the body is written verbatim into a
resolving record (stamping `approvalTime` only for `Approved`/`Rejected`),
and an id that resolves to no visitor yields a 200 response with a null
record and leaves every stored record unchanged. -/
theorem visitorResponse_always200 (visitors : List VisitorDoc)
    (b : StatusBody) (now : Nat) :
    (visitorResponse visitors b now).httpStatus = 200 ∧
    (visitors.find? (idMatch b.id) = none →
      (visitorResponse visitors b now).visitors = visitors ∧
      (visitorResponse visitors b now).data = none) ∧
    (∀ v, visitors.find? (idMatch b.id) = some v →
      (visitorResponse visitors b now).data = some (statusUpdate now b.status v)) := by
  cases h : visitors.find? (idMatch b.id) <;>
    simp [visitorResponse, h]

/-- C3 (witness of the amended theorem) at the unknown-id input. -/
theorem visitorResponse_always200_witness :
    (visitorResponse [vPending] { id := some "zzz", status := some "Approved" } 50).httpStatus = 200 ∧
    (visitorResponse [vPending] { id := some "zzz", status := some "Approved" } 50).visitors = [vPending] ∧
    (visitorResponse [vPending] { id := some "zzz", status := some "Approved" } 50).data = none := by
  have h := visitorResponse_always200 [vPending]
    { id := some "zzz", status := some "Approved" } 50
  exact ⟨h.1, (h.2.1 (by decide)).1, (h.2.1 (by decide)).2⟩

/-- C4: for a stored visitor and a decision status, `UpdateStatus` writes
the status, stamps `approvalTime` with the call's time, and returns the
updated record; a second call overwrites both, so Approved-then-Rejected
ends with status Rejected and the second call's timestamp. -/
theorem visitorResponse_decision (visitors : List VisitorDoc) (i s1 s2 : String)
    (t1 t2 : Nat) (v : VisitorDoc)
    (hfind : visitors.find? (idMatch (some i)) = some v)
    (hs1 : s1 = "Approved" ∨ s1 = "Rejected")
    (hs2 : s2 = "Approved" ∨ s2 = "Rejected") :
    (visitorResponse visitors { id := some i, status := some s1 } t1).data
      = some { v with status := s1, approvalTime := some t1 } ∧
    (visitorResponse
        (visitorResponse visitors { id := some i, status := some s1 } t1).visitors
        { id := some i, status := some s2 } t2).data
      = some { v with status := s2, approvalTime := some t2 } ∧
    (visitorResponse
        (visitorResponse visitors { id := some i, status := some s1 } t1).visitors
        { id := some i, status := some s2 } t2).visitors.find? (idMatch (some i))
      = some { v with status := s2, approvalTime := some t2 } := by
  have hp : ∀ t s w, idMatch (some i) w = true →
      idMatch (some i) (statusUpdate t (some s) w) = true := by
    intro t s w hw
    simpa [idMatch, statusUpdate_vid] using hw
  have e1 : (visitorResponse visitors { id := some i, status := some s1 } t1).visitors
      = updateFirst (idMatch (some i)) (statusUpdate t1 (some s1)) visitors := by
    simp [visitorResponse, hfind]
  have f1 : (updateFirst (idMatch (some i)) (statusUpdate t1 (some s1))
        visitors).find? (idMatch (some i))
      = some (statusUpdate t1 (some s1) v) := by
    rw [find?_updateFirst _ _ (hp t1 s1), hfind]
    rfl
  have d1 : (visitorResponse visitors { id := some i, status := some s1 } t1).data
      = some (statusUpdate t1 (some s1) v) := by
    simp [visitorResponse, hfind]
  have step2 : statusUpdate t2 (some s2) (statusUpdate t1 (some s1) v)
      = { v with status := s2, approvalTime := some t2 } := by
    rw [statusUpdate_decision t1 s1 v hs1, statusUpdate_decision t2 s2 _ hs2]
  refine ⟨?_, ?_, ?_⟩
  · rw [d1, statusUpdate_decision t1 s1 v hs1]
  · rw [e1]
    simp [visitorResponse, f1, step2]
  · rw [e1]
    simp only [visitorResponse, f1]
    rw [find?_updateFirst _ _ (hp t2 s2), f1]
    simp [step2]

/-- C4 (witness): the spec's scenario — Approve at time 20, then Reject at
time 30 — on the stored pending visitor. -/
theorem visitorResponse_decision_witness :
    (visitorResponse [vPending] { id := some "v1", status := some "Approved" } 20).data
      = some { vPending with status := "Approved", approvalTime := some 20 } ∧
    (visitorResponse
        (visitorResponse [vPending] { id := some "v1", status := some "Approved" } 20).visitors
        { id := some "v1", status := some "Rejected" } 30).data
      = some { vPending with status := "Rejected", approvalTime := some 30 } ∧
    (visitorResponse
        (visitorResponse [vPending] { id := some "v1", status := some "Approved" } 20).visitors
        { id := some "v1", status := some "Rejected" } 30).visitors.find? (idMatch (some "v1"))
      = some { vPending with status := "Rejected", approvalTime := some 30 } :=
  visitorResponse_decision [vPending] "v1" "Approved" "Rejected" 20 30 vPending
    (by decide) (Or.inl rfl) (Or.inr rfl)

/-- `updateFirst` preserves length. -/
theorem length_updateFirst (p : α → Bool) (f : α → α) (l : List α) :
    (updateFirst p f l).length = l.length := by
  induction l with
  | nil => rfl
  | cons x xs ih => by_cases h : p x = true <;> simp [updateFirst, h, ih]

/-- `updateFirst` leaves the elements not matched by `p` untouched, in
order, when `f` preserves the predicate. -/
theorem filter_not_updateFirst (p : α → Bool) (f : α → α)
    (hp : ∀ a, p a = true → p (f a) = true) (l : List α) :
    (updateFirst p f l).filter (fun a => !(p a)) = l.filter (fun a => !(p a)) := by
  induction l with
  | nil => simp [updateFirst]
  | cons x xs ih =>
    by_cases h : p x = true
    · simp [updateFirst, h, hp x h]
    · simp [updateFirst, h, ih]

/-- A truthy body value survives the Mongoose `$set`. -/
theorem mongoSet_of_truthy (old new : Option String)
    (h : strTruthy new = true) : mongoSet old new = new := by
  cases new with
  | none => simp [strTruthy] at h
  | some s => rfl

/-- Shape of a `PUT /update-visitor-target` response once the body passed
the truthiness check and the id resolved. -/
theorem updateVisitorTarget_found_eq (users : List UserDoc)
    (visitors : List VisitorDoc) (b : RetargetBody) (v : VisitorDoc)
    (hid : strTruthy b.id = true) (hflat : strTruthy b.flatNumber = true)
    (hfind : visitors.find? (idMatch b.id) = some v) :
    updateVisitorTarget users visitors b =
      { httpStatus := 200
        data := some (retargetUpdate b v)
        visitors := updateFirst (idMatch b.id) (retargetUpdate b) visitors
        dispatched := retargetDispatch users b.flatNumber } := by
  simp [updateVisitorTarget, hid, hflat, hfind]

/-- C5: retargeting a stored visitor changes only its `targetFlat` and
`purpose`: its `status`, `entryTime`, `approvalTime` (and id, name, photo,
mobile) are untouched, and every other stored record is unchanged, in
order. -/
theorem updateVisitorTarget_frame (users : List UserDoc)
    (visitors : List VisitorDoc) (b : RetargetBody) (v : VisitorDoc)
    (hid : strTruthy b.id = true) (hflat : strTruthy b.flatNumber = true)
    (hfind : visitors.find? (idMatch b.id) = some v) :
    (updateVisitorTarget users visitors b).httpStatus = 200 ∧
    (updateVisitorTarget users visitors b).data = some (retargetUpdate b v) ∧
    (retargetUpdate b v).status = v.status ∧
    (retargetUpdate b v).entryTime = v.entryTime ∧
    (retargetUpdate b v).approvalTime = v.approvalTime ∧
    (retargetUpdate b v).vid = v.vid ∧
    (retargetUpdate b v).name = v.name ∧
    (retargetUpdate b v).photo = v.photo ∧
    (retargetUpdate b v).mobile = v.mobile ∧
    (retargetUpdate b v).flatNumber = b.flatNumber ∧
    (updateVisitorTarget users visitors b).visitors.length = visitors.length ∧
    (updateVisitorTarget users visitors b).visitors.filter
        (fun w => !(idMatch b.id w))
      = visitors.filter (fun w => !(idMatch b.id w)) ∧
    (updateVisitorTarget users visitors b).visitors.find? (idMatch b.id)
      = some (retargetUpdate b v) := by
  have hp : ∀ w, idMatch b.id w = true → idMatch b.id (retargetUpdate b w) = true := by
    intro w hw
    simpa [idMatch, retargetUpdate] using hw
  rw [updateVisitorTarget_found_eq users visitors b v hid hflat hfind]
  refine ⟨rfl, rfl, rfl, rfl, rfl, rfl, rfl, rfl, rfl, ?_, ?_, ?_, ?_⟩
  · simp [retargetUpdate, mongoSet_of_truthy v.flatNumber b.flatNumber hflat]
  · exact length_updateFirst _ _ visitors
  · exact filter_not_updateFirst _ _ hp visitors
  · rw [find?_updateFirst _ _ hp visitors, hfind]
    rfl

/-- C5 (witness): retargeting the stored pending visitor from 12B to 7A. -/
theorem updateVisitorTarget_frame_witness :
    ((updateVisitorTarget [] [vPending]
        { id := some "v1", flatNumber := some "7A", purpose := some "biz" }).httpStatus = 200) ∧
    (retargetUpdate { id := some "v1", flatNumber := some "7A", purpose := some "biz" }
        vPending).status = vPending.status ∧
    (retargetUpdate { id := some "v1", flatNumber := some "7A", purpose := some "biz" }
        vPending).entryTime = vPending.entryTime ∧
    (retargetUpdate { id := some "v1", flatNumber := some "7A", purpose := some "biz" }
        vPending).approvalTime = vPending.approvalTime ∧
    (updateVisitorTarget [] [vPending]
        { id := some "v1", flatNumber := some "7A", purpose := some "biz" }).visitors.find?
        (idMatch (some "v1"))
      = some (retargetUpdate { id := some "v1", flatNumber := some "7A", purpose := some "biz" }
        vPending) := by
  have h := updateVisitorTarget_frame [] [vPending]
    { id := some "v1", flatNumber := some "7A", purpose := some "biz" } vPending
    rfl rfl (by decide)
  exact ⟨h.1, h.2.2.1, h.2.2.2.1, h.2.2.2.2.1, h.2.2.2.2.2.2.2.2.2.2.2.2⟩

/-- C6 (counterexample): two tokened co-resident accounts at flat 7A, yet a
retarget to 7A triggers a single dispatch attempt (to the first match
only); with a guard account stored first, the one attempt even goes to the
guard, so the resolved recipient is not role-filtered either. -/
theorem updateVisitorTarget_single_dispatch :
    (updateVisitorTarget [resA, resB] [vPending]
      { id := some "v1", flatNumber := some "7A", purpose := some "x" }).dispatched
      = ["tokA"] ∧
    (updateVisitorTarget [guardG, resA] [vPending]
      { id := some "v1", flatNumber := some "7A", purpose := some "x" }).dispatched
      = ["tokG"] := by
  decide

/-- C6 (amended): after a successful persisted retarget the code makes at
most one dispatch attempt, to the first stored user — of any role — whose
`flatNumber` equals the new flat, and only when that user's token is
truthy; the update response is 200 regardless of the dispatch outcome. -/
theorem updateVisitorTarget_dispatch (users : List UserDoc)
    (visitors : List VisitorDoc) (b : RetargetBody) (v : VisitorDoc)
    (hid : strTruthy b.id = true) (hflat : strTruthy b.flatNumber = true)
    (hfind : visitors.find? (idMatch b.id) = some v) :
    (updateVisitorTarget users visitors b).httpStatus = 200 ∧
    (updateVisitorTarget users visitors b).dispatched.length ≤ 1 ∧
    (∀ t ∈ (updateVisitorTarget users visitors b).dispatched,
      ∃ u, (users.find? fun w => w.flatNumber == b.flatNumber) = some u ∧
        u.pushToken = some t) := by
  rw [updateVisitorTarget_found_eq users visitors b v hid hflat hfind]
  refine ⟨rfl, ?_, ?_⟩ <;>
  · unfold retargetDispatch
    cases hu : users.find? fun w => w.flatNumber == b.flatNumber with
    | none => simp
    | some u =>
      cases ht : u.pushToken with
      | none => simp [ht]
      | some t =>
        by_cases he : t == "" <;> simp [he, hu, ht]

/-- C6 (witness of the amended theorem): the two-co-resident input. -/
theorem updateVisitorTarget_dispatch_witness :
    (updateVisitorTarget [resA, resB] [vPending]
      { id := some "v1", flatNumber := some "7A", purpose := some "x" }).httpStatus = 200 ∧
    (updateVisitorTarget [resA, resB] [vPending]
      { id := some "v1", flatNumber := some "7A", purpose := some "x" }).dispatched.length ≤ 1 ∧
    (∀ t ∈ (updateVisitorTarget [resA, resB] [vPending]
        { id := some "v1", flatNumber := some "7A", purpose := some "x" }).dispatched,
      ∃ u, ([resA, resB].find? fun w => w.flatNumber ==
          (RetargetBody.flatNumber { id := some "v1", flatNumber := some "7A", purpose := some "x" }))
          = some u ∧ u.pushToken = some t) :=
  updateVisitorTarget_dispatch [resA, resB] [vPending]
    { id := some "v1", flatNumber := some "7A", purpose := some "x" } vPending
    rfl rfl (by decide)

/-- A token appears in the dispatch loop's output exactly when some listed
user carries it and it is non-empty. -/
theorem mem_dispatchTokens (us : List UserDoc) (t : String) :
    t ∈ dispatchTokens us ↔ ∃ u ∈ us, u.pushToken = some t ∧ ¬(t = "") := by
  simp only [dispatchTokens, List.mem_filterMap]
  constructor
  · rintro ⟨u, hu, hg⟩
    refine ⟨u, hu, ?_⟩
    cases ht : u.pushToken with
    | none => rw [ht] at hg; cases hg
    | some s =>
      rw [ht] at hg
      dsimp only at hg
      split at hg
      · cases hg
      · cases hg
        refine ⟨rfl, ?_⟩
        simp_all
  · rintro ⟨u, hu, ht, hne⟩
    refine ⟨u, hu, ?_⟩
    rw [ht]
    simp [hne]

/-- C7: on a valid create naming a target flat, the dispatch attempts go to
exactly the truthy tokens of users with role `resident` and that
`flatNumber` — co-residents each get one, tokenless residents are silently
skipped — and the response is 201 whether or not the resident set is
empty. -/
theorem visitorRequest_fanout (users : List UserDoc)
    (visitors : List VisitorDoc) (vid : String) (now : Nat) (b : VisitorBody)
    (f : String) (hm : strTruthy b.mobile = true) (hf : b.flatNumber = some f) :
    (visitorRequest users visitors vid now b).httpStatus = 201 ∧
    ∀ t, t ∈ (visitorRequest users visitors vid now b).dispatched ↔
      ∃ u ∈ users, u.role = "resident" ∧ u.flatNumber = some f ∧
        u.pushToken = some t ∧ ¬(t = "") := by
  rw [visitorRequest_valid_eq users visitors vid now b hm]
  refine ⟨rfl, ?_⟩
  intro t
  rw [mem_dispatchTokens]
  constructor
  · rintro ⟨u, hu, htok, hne⟩
    rw [List.mem_filter] at hu
    obtain ⟨hmem, hcond⟩ := hu
    rw [hf] at hcond
    simp only [flatQueryMatch, Bool.and_eq_true, beq_iff_eq] at hcond
    exact ⟨u, hmem, hcond.2, hcond.1, htok, hne⟩
  · rintro ⟨u, hmem, hrole, hflat, htok, hne⟩
    refine ⟨u, ?_, htok, hne⟩
    rw [List.mem_filter]
    refine ⟨hmem, ?_⟩
    rw [hf]
    simp [flatQueryMatch, hflat, hrole]

/-- C7 (witness): two tokened co-residents of 7A plus a tokenless one;
membership in the dispatch set is exactly as characterized. -/
theorem visitorRequest_fanout_witness :
    (visitorRequest [resA, resB, resNoTok] [] "v2" 7
      { bAlex with flatNumber := some "7A" }).httpStatus = 201 ∧
    ∀ t, t ∈ (visitorRequest [resA, resB, resNoTok] [] "v2" 7
        { bAlex with flatNumber := some "7A" }).dispatched ↔
      ∃ u ∈ [resA, resB, resNoTok], u.role = "resident" ∧ u.flatNumber = some "7A" ∧
        u.pushToken = some t ∧ ¬(t = "") :=
  visitorRequest_fanout [resA, resB, resNoTok] [] "v2" 7
    { bAlex with flatNumber := some "7A" } "7A" rfl rfl

/-- C8 (counterexample): a supplied but unrecognized `target` (`"banana"`)
is not treated as `'all'`: the schema's enum validator rejects the save, the
route answers 500, nothing is persisted, and no count is returned. -/
theorem adminAnnounce_unrecognized_target_fails :
    (adminAnnounce [resA] [] "a1" 3
      { title := some "T", message := some "M", target := some "banana" }).httpStatus = 500 ∧
    (adminAnnounce [resA] [] "a1" 3
      { title := some "T", message := some "M", target := some "banana" }).announcements = [] ∧
    (adminAnnounce [resA] [] "a1" 3
      { title := some "T", message := some "M", target := some "banana" }).count = none := by
  decide

/-- Audience resolution ignores push tokens, so clearing every token leaves
the audience size unchanged. -/
theorem announceAudience_token_blind (tgt : Option String) (users : List UserDoc) :
    (announceAudience tgt (users.map fun u => { u with pushToken := none })).length
      = (announceAudience tgt users).length := by
  unfold announceAudience
  rw [List.filter_map, List.length_map]
  apply congrArg List.length
  apply List.filter_congr
  intro u _
  rfl

/-- C8 (amended): an absent `target` defaults to `'all'`, but a supplied
unrecognized value fails the enum validator — HTTP 500, nothing persisted,
no count; for an absent or recognized target the announcement is persisted
and `count` is the number of resolved audience members (absent/`all` →
every user, `resident` → exactly role resident, `guard` → exactly role
guard), counted whether or not they have a push token. -/
theorem adminAnnounce_spec (users : List UserDoc) (anns : List AnnouncementDoc)
    (aid : String) (now : Nat) (b : AnnounceBody) :
    (adminAnnounce users anns aid now b).httpStatus
      = (if targetEnumOk (b.target.getD "all") then 200 else 500) ∧
    (targetEnumOk (b.target.getD "all") = false →
      (adminAnnounce users anns aid now b).announcements = anns ∧
      (adminAnnounce users anns aid now b).count = none) ∧
    (targetEnumOk (b.target.getD "all") = true →
      (adminAnnounce users anns aid now b).announcements
        = anns ++ [{ aid := aid, title := b.title, message := b.message,
                     target := b.target.getD "all", date := now }] ∧
      (adminAnnounce users anns aid now b).count
        = some (announceAudience b.target users).length) ∧
    (b.target = some "resident" →
      announceAudience b.target users = users.filter fun u => u.role == "resident") ∧
    (b.target = some "guard" →
      announceAudience b.target users = users.filter fun u => u.role == "guard") ∧
    (b.target = none ∨ b.target = some "all" →
      announceAudience b.target users = users) ∧
    (adminAnnounce (users.map fun u => { u with pushToken := none }) anns aid now b).count
      = (adminAnnounce users anns aid now b).count := by
  refine ⟨?_, ?_, ?_, ?_, ?_, ?_, ?_⟩
  · cases h : targetEnumOk (b.target.getD "all") <;> simp [adminAnnounce, h]
  · intro h; simp [adminAnnounce, h]
  · intro h; simp [adminAnnounce, h]
  · intro h; simp [announceAudience, h]
  · intro h; simp [announceAudience, h]
  · rintro (h | h) <;> simp [announceAudience, h]
  · cases h : targetEnumOk (b.target.getD "all") <;>
      simp [adminAnnounce, h, announceAudience_token_blind]

/-- C8 (witness of the amended theorem): an absent target over a directory
of a resident, a guard, and a tokenless resident — all three counted. -/
theorem adminAnnounce_spec_witness :
    (adminAnnounce [resA, guardG, resNoTok] [] "a1" 3
      { title := some "T", message := some "M", target := none }).httpStatus = 200 ∧
    (adminAnnounce [resA, guardG, resNoTok] [] "a1" 3
      { title := some "T", message := some "M", target := none }).announcements
      = [{ aid := "a1", title := some "T", message := some "M",
           target := "all", date := 3 }] ∧
    (adminAnnounce [resA, guardG, resNoTok] [] "a1" 3
      { title := some "T", message := some "M", target := none }).count = some 3 := by
  have h := adminAnnounce_spec [resA, guardG, resNoTok] [] "a1" 3
    { title := some "T", message := some "M", target := none }
  have h200 : (adminAnnounce [resA, guardG, resNoTok] [] "a1" 3
      { title := some "T", message := some "M", target := none }).httpStatus = 200 := by
    rw [h.1]; rfl
  have hsucc := h.2.2.1 rfl
  refine ⟨h200, ?_, ?_⟩
  · rw [hsucc.1]; rfl
  · rw [hsucc.2, h.2.2.2.2.2.1 (Or.inl rfl)]
    rfl

/-- Inserting an element that precedes everything in the list just conses it. -/
theorem orderedInsert_eq_cons (a : VisitorDoc) (L : List VisitorDoc)
    (h : ∀ b ∈ L, entryDesc a b) :
    L.orderedInsert entryDesc a = a :: L := by
  cases L with
  | nil => rfl
  | cons b L =>
    have hb := h b (List.mem_cons_self b L)
    simp [List.orderedInsert, if_pos hb]

/-- An ordered insert below an element not preceding it walks past it. -/
theorem orderedInsert_cons_of_not_le (a b : VisitorDoc) (L : List VisitorDoc)
    (h : ¬ entryDesc a b) :
    (b :: L).orderedInsert entryDesc a = b :: L.orderedInsert entryDesc a := by
  simp [List.orderedInsert, h]

/-- Filtering commutes with an ordered insert of a kept element, for sorted
lists. -/
theorem filter_orderedInsert_pos (p : VisitorDoc → Bool) (a : VisitorDoc) :
    ∀ L : List VisitorDoc, L.Sorted entryDesc → p a = true →
      (L.orderedInsert entryDesc a).filter p
        = (L.filter p).orderedInsert entryDesc a
  | [], _, hp => by simp [List.orderedInsert, hp]
  | b :: L, hL, hp => by
    by_cases hab : entryDesc a b
    · rw [List.orderedInsert_of_le entryDesc L hab]
      by_cases hpb : p b = true
      · rw [List.filter_cons_of_pos hpb, List.filter_cons_of_pos hp,
          List.filter_cons_of_pos hpb,
          List.orderedInsert_of_le entryDesc (L.filter p) hab]
      · rw [List.filter_cons_of_pos hp, List.filter_cons_of_neg hpb]
        exact (orderedInsert_eq_cons a (L.filter p) fun c hc =>
          le_trans (List.rel_of_sorted_cons hL c (List.mem_of_mem_filter hc)) hab).symm
    · rw [orderedInsert_cons_of_not_le a b L hab]
      by_cases hpb : p b = true
      · rw [List.filter_cons_of_pos hpb, List.filter_cons_of_pos hpb,
          orderedInsert_cons_of_not_le a b (L.filter p) hab,
          filter_orderedInsert_pos p a L hL.of_cons hp]
      · rw [List.filter_cons_of_neg hpb, List.filter_cons_of_neg hpb,
          filter_orderedInsert_pos p a L hL.of_cons hp]

/-- Filtering out the inserted element undoes an ordered insert. -/
theorem filter_orderedInsert_neg (p : VisitorDoc → Bool) (a : VisitorDoc)
    (hp : ¬ p a = true) :
    ∀ L : List VisitorDoc,
      (L.orderedInsert entryDesc a).filter p = L.filter p
  | [] => by simp [List.orderedInsert, hp]
  | b :: L => by
    by_cases hab : entryDesc a b
    · rw [List.orderedInsert_of_le entryDesc L hab,
        List.filter_cons_of_neg hp]
    · rw [orderedInsert_cons_of_not_le a b L hab]
      by_cases hpb : p b = true
      · rw [List.filter_cons_of_pos hpb, List.filter_cons_of_pos hpb,
          filter_orderedInsert_neg p a hp L]
      · rw [List.filter_cons_of_neg hpb, List.filter_cons_of_neg hpb,
          filter_orderedInsert_neg p a hp L]

/-- The stable insertion sort commutes with `filter`. -/
theorem filter_insertionSort (p : VisitorDoc → Bool) :
    ∀ l : List VisitorDoc,
      (List.insertionSort entryDesc l).filter p
        = List.insertionSort entryDesc (l.filter p)
  | [] => rfl
  | a :: l => by
    rw [List.insertionSort]
    by_cases hp : p a = true
    · rw [filter_orderedInsert_pos p a (List.insertionSort entryDesc l)
        (List.sorted_insertionSort entryDesc l) hp,
        filter_insertionSort p l, List.filter_cons_of_pos hp,
        List.insertionSort]
    · rw [filter_orderedInsert_neg p a hp (List.insertionSort entryDesc l),
        filter_insertionSort p l, List.filter_cons_of_neg hp]

/-- C9: `ListAll` is a permutation of the stored visitors that is
non-increasing in `entryTime`, and `ListByFlat(f)` is exactly the
`targetFlat == f` subsequence of `ListAll`, in the same order. -/
theorem allVisitors_visitorsByFlat (visitors : List VisitorDoc) (flat : String) :
    (allVisitors visitors).Pairwise entryDesc ∧
    (allVisitors visitors).Perm visitors ∧
    visitorsByFlat visitors flat
      = (allVisitors visitors).filter fun v => v.flatNumber == some flat := by
  refine ⟨?_, ?_, ?_⟩
  · exact List.sorted_insertionSort entryDesc visitors
  · exact List.perm_insertionSort entryDesc visitors
  · rw [visitorsByFlat, allVisitors, filter_insertionSort]
